import Mathlib

/-!
Verification of the duplicate-checking proof-of-concept.

The definitions below are a shallow embedding of the duplicate-evaluation
decision procedure: the mock record store (`mock-db.ts`) and the request
handler (`api/chat.ts`).  Machine reals (the similarity scores) are
modelled as rationals; the external generative-model call (the "Judgment
Oracle") is an explicit function parameter returning `Option` — `none`
models a failed invocation (timeout, malformed response, provider error),
which the source catches.  The streamed response is modelled as the ordered
list of writer events the handler emits on the path where award data is
present in the request.
-/

namespace DupCheck

/-- Cost kind of a line-item definition (`LineItem.type` in `mock-db.ts`). -/
inductive CostType
  | fixedCost
  | variableCost
deriving DecidableEq, Repr

/-- Contract status (`Contract.status` in `mock-db.ts`). -/
inductive ContractStatus
  | awarded
  | pending
  | cancelled
deriving DecidableEq, Repr

/-- A line-item reference-data record (`LineItem` in `mock-db.ts`). -/
structure LineItem where
  id : String
  name : String
  type : CostType
  details : Option String := none
deriving DecidableEq, Repr

/-- A line-item entry inside a contract or an award proposal
(`Contract.lineItems[i]` / `AwardData.lineItems[i]` in `mock-db.ts`).
Absent optional fields are `none`. -/
structure EntryItem where
  lineItemId : String
  quantity : Option Nat := none
  details : Option String := none
deriving DecidableEq, Repr

/-- A contract record (`Contract` in `mock-db.ts`). -/
structure Contract where
  id : String
  contractNumber : String
  siteId : String
  porId : String
  status : ContractStatus
  lineItems : List EntryItem
  awardedDate : String
deriving DecidableEq, Repr

/-- An award proposal (`AwardData` in `mock-db.ts`). -/
structure AwardData where
  siteId : String
  porId : String
  lineItems : List EntryItem
deriving DecidableEq, Repr

/-- The record store: the contract table and the line-item definition
table (`MOCK_CONTRACTS` and `MOCK_LINE_ITEMS` in `mock-db.ts`). -/
structure Db where
  contracts : List Contract
  lineItems : List LineItem
deriving DecidableEq, Repr

/-- Function `searchExistingContracts` from `mock-db.ts`: filter the contract table
to awarded contracts at the given site/POR containing at least one of the
given line-item ids. -/
def searchExistingContracts (contracts : List Contract) (siteId porId : String)
    (lineItemIds : List String) : List Contract :=
  contracts.filter fun contract =>
    contract.status == ContractStatus.awarded &&
    contract.siteId == siteId &&
    contract.porId == porId &&
    contract.lineItems.any fun li => lineItemIds.contains li.lineItemId

/-- Function `getLineItemDetails` from `mock-db.ts`: find a line-item definition by id. -/
def getLineItemDetails (lineItems : List LineItem) (lineItemId : String) :
    Option LineItem :=
  lineItems.find? fun li => li.id == lineItemId

/-- Response of the Judgment Oracle (the zod `duplicateAnalysisSchema` for
`generateObject` in `chat.ts`): a similarity score, a duplicate verdict and
a free-text reasoning.  The zod schema clamps the score to `[0, 1]`; a
response outside the schema fails validation and surfaces as a failed
invocation (`none` under `Oracle` below), so scores are left unconstrained
here — every theorem holds for arbitrary responses. -/
structure OracleResponse where
  similarity_score : ℚ
  is_duplicate : Bool
  reasoning : String
deriving DecidableEq, Repr

/-- The Judgment Oracle: given the new item's details (as interpolated into
the prompt) and the existing item's details, either a structured response
or `none` for a failed invocation (the `catch` branch in `chat.ts`). -/
abbrev Oracle := String → String → Option OracleResponse

/-- One element of `variableCostMatches` in `detectVariableCostDuplicates`:
the contract id and number together with the (defaulted) details text of a
matching existing line item. -/
structure DetailedMatch where
  contractId : String
  contractNumber : String
  details : String
deriving DecidableEq, Repr

/-- Local constant `variableCostMatches` in `detectVariableCostDuplicates` (`chat.ts`):
over all candidate contracts, the entries with the proposed line-item id,
keeping `li.details || ''`, then dropping falsy (empty) details. -/
def variableCostMatches (newLineItem : EntryItem) (existingContracts : List Contract) :
    List DetailedMatch :=
  (existingContracts.flatMap fun contract =>
      (contract.lineItems.filter fun li => li.lineItemId == newLineItem.lineItemId).map
        fun li => DetailedMatch.mk contract.id contract.contractNumber (li.details.getD "")
    ).filter fun m => m.details != ""

/-- Whether the second character list starts with the first (character-level
helper for `strIncludes`). -/
def charsStartWith : List Char → List Char → Bool
  | [], _ => true
  | _ :: _, [] => false
  | a :: pre, b :: hay => a == b && charsStartWith pre hay

/-- Helper for `strIncludes`: does `needle` occur in the given suffix list. -/
def strIncludesAux (needle : List Char) : List Char → Bool
  | [] => needle.isEmpty
  | c :: t => charsStartWith needle (c :: t) || strIncludesAux needle t

/-- JavaScript `String.prototype.includes`: `needle` occurs as a contiguous
substring of `hay`. -/
def strIncludes (hay needle : String) : Bool :=
  strIncludesAux needle.data hay.data

/-- Expression `newLineItem.details || 'No details provided'` — the new item's details
as interpolated into the Oracle prompt (`chat.ts`); JavaScript `||` treats
the empty string as falsy. -/
def promptDetails (details : Option String) : String :=
  match details with
  | none => "No details provided"
  | some s => if s == "" then "No details provided" else s

/-- The keyword list of the lexical fallback in `detectVariableCostDuplicates`:
`(details || '').toLowerCase().split(/\s+/).filter(w => w.length > 3)`. -/
def fallbackKeywords (details : Option String) : List String :=
  ((details.getD "").toLower.split fun c => c.isWhitespace).filter
    fun w => w.length > 3

/-- Result type of `detectVariableCostDuplicates` (`chat.ts`). -/
structure DetectResult where
  isDuplicate : Bool
  similarityScore : ℚ
  reasoning : String
  matchingContractId : Option String := none
deriving DecidableEq, Repr

/-- Function `detectVariableCostDuplicates` from `chat.ts`: find existing detailed
entries for the same line-item id; if none, short-circuit; otherwise ask
the Oracle about the first one, OR-ing its verdict with the `> 0.7` score
threshold; on Oracle failure fall back to the keyword heuristic with the
`> 0.5` threshold. -/
def detectVariableCostDuplicates (oracle : Oracle) (newLineItem : EntryItem)
    (existingContracts : List Contract) : DetectResult :=
  match variableCostMatches newLineItem existingContracts with
  | [] =>
      { isDuplicate := false
        similarityScore := 0
        reasoning := "No variable-cost items with details found to compare" }
  | firstMatch :: _ =>
      match oracle (promptDetails newLineItem.details) firstMatch.details with
      | some resp =>
          { isDuplicate := resp.is_duplicate || decide (resp.similarity_score > (0.7 : ℚ))
            similarityScore := resp.similarity_score
            reasoning := resp.reasoning
            matchingContractId := some firstMatch.contractId }
      | none =>
          let keywords := fallbackKeywords newLineItem.details
          let numMatches :=
            (keywords.filter fun kw => strIncludes firstMatch.details.toLower kw).length
          let similarityScore : ℚ :=
            if keywords.length > 0 then (numMatches : ℚ) / (keywords.length : ℚ) else 0
          { isDuplicate := decide (similarityScore > (0.5 : ℚ))
            similarityScore := similarityScore
            reasoning := "Keyword-based similarity: " ++ toString numMatches ++ "/"
              ++ toString keywords.length ++ " keywords match (AI analysis unavailable)"
            matchingContractId := some firstMatch.contractId }

/-- Match kind of a duplicate finding (`matchType` in `chat.ts`). -/
inductive MatchType
  | exact
  | semantic
deriving DecidableEq, Repr

/-- One element of the `duplicates` array accumulated by the handler
(`chat.ts`); optional fields are populated only on the semantic path. -/
structure DuplicateFinding where
  lineItemId : String
  lineItemName : String
  existingContractId : String
  existingContractNumber : String
  matchType : MatchType
  similarityScore : Option ℚ := none
  aiReasoning : Option String := none
deriving DecidableEq, Repr

/-- The line-item ids of a proposal, as passed to `searchExistingContracts`
by the handler (`extractedAwardData.lineItems.map(li => li.lineItemId)`). -/
def awardLineItemIds (award : AwardData) : List String :=
  award.lineItems.map fun li => li.lineItemId

/-- Local constant `existingContracts` in the handler: the single up-front contract search
over the proposal's site, POR and full line-item id list. -/
def awardSearch (db : Db) (award : AwardData) : List Contract :=
  searchExistingContracts db.contracts award.siteId award.porId (awardLineItemIds award)

/-- Local constant `contractsWithLineItem` in the handler: the searched contracts that
contain an entry with the given line-item id. -/
def contractsWithItem (existingContracts : List Contract) (lineItemId : String) :
    List Contract :=
  existingContracts.filter fun contract =>
    contract.lineItems.any fun li => li.lineItemId == lineItemId

/-- The body of the handler's `for (const newLineItem of ...)` loop: the
findings one proposed entry appends to `duplicates`.  A missing line-item
definition is skipped (`continue`); fixed-cost entries append one exact
finding per matching contract; variable-cost entries run
`detectVariableCostDuplicates` and append at most one semantic finding. -/
def entryFindings (db : Db) (oracle : Oracle) (award : AwardData)
    (newLineItem : EntryItem) : List DuplicateFinding :=
  match getLineItemDetails db.lineItems newLineItem.lineItemId with
  | none => []
  | some lineItem =>
      if (contractsWithItem (awardSearch db award) newLineItem.lineItemId).length > 0 then
        if lineItem.type == CostType.fixedCost then
          (contractsWithItem (awardSearch db award) newLineItem.lineItemId).map
            fun contract =>
              { lineItemId := newLineItem.lineItemId
                lineItemName := lineItem.name
                existingContractId := contract.id
                existingContractNumber := contract.contractNumber
                matchType := MatchType.exact }
        else
          match (detectVariableCostDuplicates oracle newLineItem
              (contractsWithItem (awardSearch db award) newLineItem.lineItemId)).matchingContractId with
          | some mcid =>
              if (detectVariableCostDuplicates oracle newLineItem
                    (contractsWithItem (awardSearch db award) newLineItem.lineItemId)).isDuplicate
                  && mcid != "" then
                [{ lineItemId := newLineItem.lineItemId
                   lineItemName := lineItem.name
                   existingContractId := mcid
                   existingContractNumber :=
                     (((contractsWithItem (awardSearch db award) newLineItem.lineItemId).find?
                         fun c => c.id == mcid).map
                       fun c => c.contractNumber).getD ""
                   matchType := MatchType.semantic
                   similarityScore := some (detectVariableCostDuplicates oracle newLineItem
                     (contractsWithItem (awardSearch db award) newLineItem.lineItemId)).similarityScore
                   aiReasoning := some (detectVariableCostDuplicates oracle newLineItem
                     (contractsWithItem (awardSearch db award) newLineItem.lineItemId)).reasoning }]
              else []
          | none => []
      else []

/-- The handler's duplicate-detection loop in full: the `duplicates` array
after iterating the proposed entries in input order. -/
def evalDuplicates (db : Db) (oracle : Oracle) (award : AwardData) :
    List DuplicateFinding :=
  award.lineItems.flatMap (entryFindings db oracle award)

/-- Severity level of the duplicate summary (`warningLevel` in `chat.ts`). -/
inductive WarningLevel
  | low
  | medium
  | high
deriving DecidableEq, Repr

/-- Expression `duplicates.length === 1 ? 'low' : duplicates.length <= 3 ? 'medium' :
'high'` — computed only when at least one duplicate was found. -/
def computeWarningLevel (n : Nat) : WarningLevel :=
  if n == 1 then WarningLevel.low
  else if n ≤ 3 then WarningLevel.medium
  else WarningLevel.high

/-- One `writer.write` event of the response stream (`chat.ts`); the random
UUID ids attached to text events carry no information and are omitted. -/
inductive StreamEvent
  | textStart
  | textDelta (text : String)
  | textEnd
  | duplicateWarning (duplicates : List DuplicateFinding) (requiresAcknowledgment : Bool)
  | duplicateSummary (totalDuplicates : Nat) (totalLineItems : Nat)
      (warningLevel : WarningLevel)
deriving DecidableEq, Repr

/-- The initial status text the handler streams when award data is present. -/
def statusText (award : AwardData) : String :=
  "Checking for duplicates in award:\n- Site: " ++ award.siteId
    ++ "\n- POR: " ++ award.porId
    ++ "\n- Line Items: " ++ toString award.lineItems.length
    ++ "\n\nAnalyzing existing contracts..."

/-- The closing warning narrative when duplicates were found. -/
def warningNarrative (totalDuplicates : Nat) : String :=
  "\n\n⚠️ **Duplicate Check Complete**\n\nFound " ++ toString totalDuplicates
    ++ " duplicate line item(s) that match existing contracts. Please review the details below."

/-- The closing success narrative when no duplicates were found. -/
def successNarrative (totalLineItems : Nat) : String :=
  "\n\n✅ **Duplicate Check Complete**\n\nNo duplicates found! All "
    ++ toString totalLineItems
    ++ " line item(s) are unique for this Site and POR. You can proceed with the award."

/-- The ordered event sequence the handler writes on the path where award
data is present in the request: the status text, then — depending on
whether the duplicate list is non-empty — either the duplicate-warning and
duplicate-summary data parts followed by the warning narrative, or the
success narrative alone. -/
def pipelineEvents (db : Db) (oracle : Oracle) (award : AwardData) :
    List StreamEvent :=
  [StreamEvent.textStart, StreamEvent.textDelta (statusText award), StreamEvent.textEnd]
    ++ (if (evalDuplicates db oracle award).length > 0 then
          [StreamEvent.duplicateWarning (evalDuplicates db oracle award) true,
           StreamEvent.duplicateSummary (evalDuplicates db oracle award).length
             award.lineItems.length
             (computeWarningLevel (evalDuplicates db oracle award).length),
           StreamEvent.textStart,
           StreamEvent.textDelta (warningNarrative (evalDuplicates db oracle award).length),
           StreamEvent.textEnd]
        else
          [StreamEvent.textStart,
           StreamEvent.textDelta (successNarrative award.lineItems.length),
           StreamEvent.textEnd])

/-- A full evaluation run against a record store: the finding list together
with the store as the run leaves it.  The source has no write path to the
store (the mock database exposes only lookups and filters), so the store
comes back unchanged; `runEvaluation` makes that read-only lifecycle
explicit for the idempotence claim. -/
def runEvaluation (db : Db) (oracle : Oracle) (award : AwardData) :
    List DuplicateFinding × Db :=
  (evalDuplicates db oracle award, db)

/-- Table `MOCK_LINE_ITEMS` from `mock-db.ts`. -/
def MOCK_LINE_ITEMS : List LineItem :=
  [{ id := "line-001", name := "Fiber Optic Cable Installation", type := CostType.variableCost },
   { id := "line-002", name := "Network Switch", type := CostType.fixedCost },
   { id := "line-003", name := "Tower Foundation", type := CostType.fixedCost },
   { id := "line-004", name := "Site Preparation", type := CostType.variableCost },
   { id := "line-005", name := "Equipment Rack", type := CostType.fixedCost }]

/-- Table `MOCK_CONTRACTS` from `mock-db.ts`. -/
def MOCK_CONTRACTS : List Contract :=
  [{ id := "contract-001", contractNumber := "PO-2025-001",
     siteId := "site-001", porId := "por-001", status := ContractStatus.awarded,
     lineItems :=
       [{ lineItemId := "line-001",
          details := some "Install fiber optic cable from main hub to building basement" },
        { lineItemId := "line-002", quantity := some 2 }],
     awardedDate := "2025-01-15" },
   { id := "contract-002", contractNumber := "PO-2025-002",
     siteId := "site-001", porId := "por-001", status := ContractStatus.awarded,
     lineItems :=
       [{ lineItemId := "line-004",
          details := some "Prepare site for fiber installation - trenching and conduit" }],
     awardedDate := "2025-01-20" },
   { id := "contract-003", contractNumber := "PO-2025-003",
     siteId := "site-002", porId := "por-002", status := ContractStatus.awarded,
     lineItems :=
       [{ lineItemId := "line-002", quantity := some 5 },
        { lineItemId := "line-005", quantity := some 3 }],
     awardedDate := "2025-02-01" },
   { id := "contract-004", contractNumber := "PO-2025-004",
     siteId := "site-001", porId := "por-001", status := ContractStatus.cancelled,
     lineItems :=
       [{ lineItemId := "line-001", details := some "Cancelled contract" }],
     awardedDate := "2025-01-10" }]

/-- The seeded record store of the proof-of-concept. -/
def mockDb : Db :=
  { contracts := MOCK_CONTRACTS, lineItems := MOCK_LINE_ITEMS }

/-- An Oracle whose every invocation fails (unreachable provider). -/
def failingOracle : Oracle := fun _ _ => none

/-- Modelled from the spec: the deterministic lexical fallback heuristic as
§4.2 words it — tokenize on whitespace, keep tokens longer than 3
characters, take the fraction of the new item's tokens that appear as
substrings in the existing item's text (the source compares lowercased
text; the spec is silent on case).  The duplicate verdict is `true` exactly
when this fraction exceeds `0.5`.  With no tokens the fraction is `0/0 = 0`. -/
def specLexicalFraction (newText existingText : String) : ℚ :=
  let tokens :=
    (newText.toLower.split fun c => c.isWhitespace).filter fun w => w.length > 3
  let appearing :=
    (tokens.filter fun t => strIncludes existingText.toLower t).length
  (appearing : ℚ) / (tokens.length : ℚ)

/-- Modelled from the spec: the fallback's duplicate verdict, `true` exactly
when the lexical-overlap fraction exceeds `0.5`. -/
def specLexicalVerdict (newText existingText : String) : Bool :=
  decide (specLexicalFraction newText existingText > (0.5 : ℚ))

/-! ### Helper lemmas -/

lemma contains_iff_mem {α : Type _} [BEq α] [LawfulBEq α] (l : List α) (a : α) :
    l.contains a = true ↔ a ∈ l := by
  simp

/-- Membership in `searchExistingContracts` unfolded into the four filter
conditions. -/
lemma mem_searchExistingContracts {contracts : List Contract} {siteId porId : String}
    {ids : List String} {c : Contract} :
    c ∈ searchExistingContracts contracts siteId porId ids ↔
      c ∈ contracts ∧ c.status = ContractStatus.awarded ∧ c.siteId = siteId ∧
        c.porId = porId ∧ ∃ li ∈ c.lineItems, li.lineItemId ∈ ids := by
  simp only [searchExistingContracts, List.mem_filter, Bool.and_eq_true, beq_iff_eq,
    List.any_eq_true, contains_iff_mem]
  tauto

/-- Every detailed match comes from one of the candidate contracts. -/
lemma mem_variableCostMatches {e : EntryItem} {cs : List Contract} {m : DetailedMatch}
    (h : m ∈ variableCostMatches e cs) : ∃ c ∈ cs, m.contractId = c.id := by
  simp only [variableCostMatches, List.mem_filter, List.mem_flatMap, List.mem_map] at h
  obtain ⟨⟨c, hc, li, -, rfl⟩, -⟩ := h
  exact ⟨c, hc, rfl⟩

/-- The contract id reported by `detectVariableCostDuplicates` is the id of
one of the candidate contracts. -/
lemma detect_matchingContractId_mem {oracle : Oracle} {e : EntryItem}
    {cs : List Contract} {mcid : String}
    (h : (detectVariableCostDuplicates oracle e cs).matchingContractId = some mcid) :
    ∃ c ∈ cs, mcid = c.id := by
  unfold detectVariableCostDuplicates at h
  split at h
  · simp at h
  · rename_i fm rest hvm
    have hfm : fm ∈ variableCostMatches e cs := by rw [hvm]; exact List.mem_cons_self _ _
    obtain ⟨c, hc, hid⟩ := mem_variableCostMatches hfm
    split at h <;> simp_all <;> exact ⟨c, hc, h.symm⟩

/-- Lemma: `contractsWithItem` only keeps contracts of the searched list. -/
lemma contractsWithItem_subset {l : List Contract} {lineItemId : String} {c : Contract}
    (h : c ∈ contractsWithItem l lineItemId) : c ∈ l :=
  (List.mem_filter.mp h).1

/-- Every finding an entry contributes names the id of a contract of the
entry's candidate list. -/
lemma mem_entryFindings {db : Db} {oracle : Oracle} {award : AwardData}
    {e : EntryItem} {f : DuplicateFinding}
    (h : f ∈ entryFindings db oracle award e) :
    ∃ c ∈ contractsWithItem (awardSearch db award) e.lineItemId,
      f.existingContractId = c.id := by
  unfold entryFindings at h
  split at h
  · simp at h
  · rename_i d hdef
    split at h
    · split at h
      · obtain ⟨c, hc, rfl⟩ := List.mem_map.mp h
        exact ⟨c, hc, rfl⟩
      · split at h
        · rename_i mcid hmc
          obtain ⟨c, hc, hid⟩ := detect_matchingContractId_mem hmc
          split at h
          · rw [List.mem_singleton.mp h]
            exact ⟨c, hc, hid⟩
          · simp at h
        · simp at h
    · simp at h

/-- Membership in the duplicate list decomposes by proposed entry. -/
lemma mem_evalDuplicates {db : Db} {oracle : Oracle} {award : AwardData}
    {f : DuplicateFinding} (h : f ∈ evalDuplicates db oracle award) :
    ∃ e ∈ award.lineItems, f ∈ entryFindings db oracle award e := by
  simpa [evalDuplicates] using List.mem_flatMap.mp h

/-! ### Concrete fixtures used by witnesses and counterexamples -/

/-- Scenario A of the spec: propose fixed-cost `line-002` at
`site-001`/`por-001`, where awarded `contract-001` already has it. -/
def awardA : AwardData :=
  { siteId := "site-001", porId := "por-001",
    lineItems := [{ lineItemId := "line-002", quantity := some 1 }] }

/-- The exact-match finding Scenario A produces. -/
def exactFindingA : DuplicateFinding :=
  { lineItemId := "line-002", lineItemName := "Network Switch",
    existingContractId := "contract-001", existingContractNumber := "PO-2025-001",
    matchType := MatchType.exact }

/-- The first seeded contract (`contract-001`). -/
def contractPO1 : Contract :=
  { id := "contract-001", contractNumber := "PO-2025-001",
    siteId := "site-001", porId := "por-001", status := ContractStatus.awarded,
    lineItems :=
      [{ lineItemId := "line-001",
         details := some "Install fiber optic cable from main hub to building basement" },
       { lineItemId := "line-002", quantity := some 2 }],
    awardedDate := "2025-01-15" }

/-- A structurally invalid proposal: both identifiers missing (empty). -/
def invalidAward : AwardData :=
  { siteId := "", porId := "", lineItems := [] }

/-! ### The claims -/

/-- C1 (counterexample): the pipeline does not terminate before any event is
emitted on a structurally invalid proposal, and signals no client-error
outcome.  For the concrete proposal with missing (empty) site and
project-reference identifiers, the handler streams the status text and then
completes through the ordinary clean-completion path — six events, none of
them an error. -/
theorem invalid_proposal_still_streams_events :
    pipelineEvents mockDb failingOracle invalidAward =
      [StreamEvent.textStart,
       StreamEvent.textDelta (statusText invalidAward),
       StreamEvent.textEnd,
       StreamEvent.textStart,
       StreamEvent.textDelta (successNarrative 0),
       StreamEvent.textEnd] ∧
    pipelineEvents mockDb failingOracle invalidAward ≠ [] := by
  constructor
  · rfl
  · decide

/-- C1 (amended): the handler has no rejection path at all.  For every
record store, Oracle and proposal — structurally invalid ones included —
the event stream opens with the status text and continues with a non-empty
completion tail (warning path or clean path); no client-error outcome
exists in the handler. -/
theorem pipeline_never_rejects_status_first (db : Db) (oracle : Oracle)
    (award : AwardData) :
    ∃ rest, pipelineEvents db oracle award =
        StreamEvent.textStart :: StreamEvent.textDelta (statusText award) ::
          StreamEvent.textEnd :: rest ∧ rest ≠ [] := by
  unfold pipelineEvents
  split
  · exact ⟨_, rfl, by simp⟩
  · exact ⟨_, rfl, by simp⟩

/-- C2: `searchExistingContracts` returns exactly the stored contracts with
status `awarded`, the proposal's site and POR, and at least one line item
in the proposal's id set; consequently every finding of an evaluation names
the id of such an awarded contract, so a `cancelled` or `pending` contract
never contributes a finding even when it shares site, POR and line-item
ids with the proposal. -/
theorem search_filter_characterization :
    (∀ (contracts : List Contract) (siteId porId : String) (ids : List String)
        (c : Contract),
      c ∈ searchExistingContracts contracts siteId porId ids ↔
        c ∈ contracts ∧ c.status = ContractStatus.awarded ∧ c.siteId = siteId ∧
          c.porId = porId ∧ ∃ li ∈ c.lineItems, li.lineItemId ∈ ids) ∧
    (∀ (db : Db) (oracle : Oracle) (award : AwardData) (f : DuplicateFinding),
      f ∈ evalDuplicates db oracle award →
        ∃ c ∈ awardSearch db award, c.status = ContractStatus.awarded ∧
          f.existingContractId = c.id) := by
  refine ⟨fun contracts siteId porId ids c => mem_searchExistingContracts, ?_⟩
  intro db oracle award f hf
  obtain ⟨e, he, hef⟩ := mem_evalDuplicates hf
  obtain ⟨c, hc, hid⟩ := mem_entryFindings hef
  have hcs : c ∈ awardSearch db award := contractsWithItem_subset hc
  exact ⟨c, hcs, (mem_searchExistingContracts.mp hcs).2.1, hid⟩

/-- Witness for C2 at concrete inputs: awarded `contract-001` is returned
by the search that the cancelled `contract-004` (same site, POR and line
item) is excluded from, and Scenario A's finding traces back to an awarded
searched contract. -/
theorem search_filter_characterization_witness :
    contractPO1 ∈ searchExistingContracts MOCK_CONTRACTS "site-001" "por-001" ["line-001"] ∧
    (∃ c ∈ awardSearch mockDb awardA, c.status = ContractStatus.awarded ∧
      exactFindingA.existingContractId = c.id) :=
  ⟨(search_filter_characterization.1 MOCK_CONTRACTS "site-001" "por-001" ["line-001"]
      contractPO1).mpr (by decide),
   search_filter_characterization.2 mockDb failingOracle awardA exactFindingA (by decide)⟩

/-- C9: evaluating the same proposal twice against an unchanged record
store with the same (fixed-output) Oracle yields identical ordered finding
sequences.  The embedding makes the store's read-only lifecycle explicit:
a run returns the store it leaves behind, the second run consumes it, and
the two finding lists coincide; determinism holds because the evaluation
is a pure function of store, Oracle and proposal — the source has no write
path and no other input. -/
theorem evaluation_idempotent (db : Db) (oracle : Oracle) (award : AwardData) :
    (runEvaluation db oracle award).2 = db ∧
    (runEvaluation (runEvaluation db oracle award).2 oracle award).1 =
      (runEvaluation db oracle award).1 :=
  ⟨rfl, rfl⟩

/-- Whether a stream event is the `data-duplicate-warning` data part. -/
def isDuplicateWarningEvent : StreamEvent → Bool
  | StreamEvent.duplicateWarning _ _ => true
  | _ => false

/-- Whether a stream event is the `data-duplicate-summary` data part. -/
def isDuplicateSummaryEvent : StreamEvent → Bool
  | StreamEvent.duplicateSummary _ _ _ => true
  | _ => false

/-- The warning levels carried by the duplicate-summary events of a stream,
in order. -/
def summaryLevels (events : List StreamEvent) : List WarningLevel :=
  events.filterMap fun e =>
    match e with
    | StreamEvent.duplicateSummary _ _ lvl => some lvl
    | _ => none

/-- C5: the emitted `warningLevel` is `low` exactly when the duplicate
count is 1, `medium` for 2–3, `high` for 4 or more; and with zero
duplicates neither the duplicate-summary nor the duplicate-warning event
is emitted at all. -/
theorem warningLevel_thresholds (db : Db) (oracle : Oracle) (award : AwardData) :
    ((evalDuplicates db oracle award).length = 0 →
      ∀ e ∈ pipelineEvents db oracle award,
        isDuplicateWarningEvent e = false ∧ isDuplicateSummaryEvent e = false) ∧
    ((evalDuplicates db oracle award).length = 1 →
      summaryLevels (pipelineEvents db oracle award) = [WarningLevel.low]) ∧
    (2 ≤ (evalDuplicates db oracle award).length →
      (evalDuplicates db oracle award).length ≤ 3 →
      summaryLevels (pipelineEvents db oracle award) = [WarningLevel.medium]) ∧
    (4 ≤ (evalDuplicates db oracle award).length →
      summaryLevels (pipelineEvents db oracle award) = [WarningLevel.high]) := by
  refine ⟨?_, ?_, ?_, ?_⟩
  · intro h e he
    simp only [pipelineEvents, h] at he
    norm_num at he
    rcases he with rfl | rfl | rfl | rfl | rfl | rfl <;>
      simp [isDuplicateWarningEvent, isDuplicateSummaryEvent]
  · intro h
    simp [pipelineEvents, summaryLevels, h, computeWarningLevel]
  · intro h2 h3
    have h0 : (evalDuplicates db oracle award).length > 0 := by omega
    have h1 : ((evalDuplicates db oracle award).length == 1) = false := by
      simp; omega
    simp [pipelineEvents, summaryLevels, h0, computeWarningLevel, h1, h3]
  · intro h4
    have h0 : (evalDuplicates db oracle award).length > 0 := by omega
    have h1 : ((evalDuplicates db oracle award).length == 1) = false := by
      simp; omega
    have h3 : ¬ (evalDuplicates db oracle award).length ≤ 3 := by omega
    simp [pipelineEvents, summaryLevels, h0, computeWarningLevel, h1, h3]

/-- Scenario C of the spec: a proposal at `site-003`/`por-003`, a pair with
no stored contracts. -/
def awardC : AwardData :=
  { siteId := "site-003", porId := "por-003",
    lineItems := [{ lineItemId := "line-002", quantity := some 1 }] }

/-- A proposal that produces two duplicates: `contract-003` at
`site-002`/`por-002` holds both proposed fixed-cost items. -/
def awardB2 : AwardData :=
  { siteId := "site-002", porId := "por-002",
    lineItems := [{ lineItemId := "line-002", quantity := some 1 },
                  { lineItemId := "line-005", quantity := some 1 }] }

/-- A store with four awarded contracts all holding the same fixed-cost
item at one site/POR pair: a proposal of that item yields four duplicates. -/
def dbHigh : Db :=
  { contracts :=
      [{ id := "c1", contractNumber := "N1", siteId := "s", porId := "p",
         status := ContractStatus.awarded,
         lineItems := [{ lineItemId := "item-x", quantity := some 1 }],
         awardedDate := "2025-01-01" },
       { id := "c2", contractNumber := "N2", siteId := "s", porId := "p",
         status := ContractStatus.awarded,
         lineItems := [{ lineItemId := "item-x", quantity := some 1 }],
         awardedDate := "2025-01-02" },
       { id := "c3", contractNumber := "N3", siteId := "s", porId := "p",
         status := ContractStatus.awarded,
         lineItems := [{ lineItemId := "item-x", quantity := some 1 }],
         awardedDate := "2025-01-03" },
       { id := "c4", contractNumber := "N4", siteId := "s", porId := "p",
         status := ContractStatus.awarded,
         lineItems := [{ lineItemId := "item-x", quantity := some 1 }],
         awardedDate := "2025-01-04" }],
    lineItems := [{ id := "item-x", name := "Item X", type := CostType.fixedCost }] }

/-- The proposal matching all four contracts of `dbHigh`. -/
def awardHigh : AwardData :=
  { siteId := "s", porId := "p",
    lineItems := [{ lineItemId := "item-x", quantity := some 1 }] }

/-- Witness for C5 at concrete inputs: zero duplicates emit no
warning/summary events (Scenario C), one duplicate gives `low`
(Scenario A), two give `medium`, four give `high`. -/
theorem warningLevel_thresholds_witness :
    (∀ e ∈ pipelineEvents mockDb failingOracle awardC,
        isDuplicateWarningEvent e = false ∧ isDuplicateSummaryEvent e = false) ∧
    summaryLevels (pipelineEvents mockDb failingOracle awardA) = [WarningLevel.low] ∧
    summaryLevels (pipelineEvents mockDb failingOracle awardB2) = [WarningLevel.medium] ∧
    summaryLevels (pipelineEvents dbHigh failingOracle awardHigh) = [WarningLevel.high] :=
  ⟨(warningLevel_thresholds mockDb failingOracle awardC).1 (by decide),
   (warningLevel_thresholds mockDb failingOracle awardA).2.1 (by decide),
   (warningLevel_thresholds mockDb failingOracle awardB2).2.2.1 (by decide) (by decide),
   (warningLevel_thresholds dbHigh failingOracle awardHigh).2.2.2 (by decide)⟩

/-- Membership in `contractsWithItem` unfolded. -/
lemma mem_contractsWithItem {l : List Contract} {lineItemId : String} {c : Contract} :
    c ∈ contractsWithItem l lineItemId ↔
      c ∈ l ∧ ∃ li ∈ c.lineItems, li.lineItemId = lineItemId := by
  simp [contractsWithItem, List.mem_filter]

/-- C6: a fixed-cost proposed entry yields exactly one exact-match finding
per matching contract, in order and not deduplicated across contracts; and
the matching contracts are exactly the stored awarded contracts at the
proposal's site/POR pair that contain the entry's line-item id. -/
theorem fixedCost_one_finding_per_contract (db : Db) (oracle : Oracle)
    (award : AwardData) (e : EntryItem) (d : LineItem)
    (hmem : e ∈ award.lineItems)
    (hdef : getLineItemDetails db.lineItems e.lineItemId = some d)
    (htype : d.type = CostType.fixedCost) :
    entryFindings db oracle award e =
      (contractsWithItem (awardSearch db award) e.lineItemId).map
        (fun c =>
          { lineItemId := e.lineItemId, lineItemName := d.name,
            existingContractId := c.id, existingContractNumber := c.contractNumber,
            matchType := MatchType.exact }) ∧
    ∀ c : Contract,
      c ∈ contractsWithItem (awardSearch db award) e.lineItemId ↔
        c ∈ db.contracts ∧ c.status = ContractStatus.awarded ∧
          c.siteId = award.siteId ∧ c.porId = award.porId ∧
          ∃ li ∈ c.lineItems, li.lineItemId = e.lineItemId := by
  have ht : (d.type == CostType.fixedCost) = true := by rw [htype]; rfl
  constructor
  · by_cases hlen : (contractsWithItem (awardSearch db award) e.lineItemId).length > 0
    · simp [entryFindings, hdef, hlen, ht]
    · have hnil : contractsWithItem (awardSearch db award) e.lineItemId = [] :=
        List.length_eq_zero.mp (by omega)
      simp [entryFindings, hdef, hnil]
  · intro c
    rw [mem_contractsWithItem]
    constructor
    · rintro ⟨hsearch, hli⟩
      have hs := mem_searchExistingContracts.mp hsearch
      exact ⟨hs.1, hs.2.1, hs.2.2.1, hs.2.2.2.1, hli⟩
    · rintro ⟨hdb, hstat, hsite, hpor, li, hli, hid⟩
      refine ⟨mem_searchExistingContracts.mpr ⟨hdb, hstat, hsite, hpor, li, hli, ?_⟩,
        li, hli, hid⟩
      rw [hid, awardLineItemIds]
      exact List.mem_map.mpr ⟨e, hmem, rfl⟩

/-- Witness for C6 at Scenario A: the proposed fixed-cost `line-002` at
`site-001`/`por-001` produces exactly the one exact-match finding against
`contract-001`, and the matching-contract characterization holds there. -/
theorem fixedCost_one_finding_per_contract_witness :
    entryFindings mockDb failingOracle awardA
        { lineItemId := "line-002", quantity := some 1 } = [exactFindingA] ∧
    ∀ c : Contract,
      c ∈ contractsWithItem (awardSearch mockDb awardA) "line-002" ↔
        c ∈ MOCK_CONTRACTS ∧ c.status = ContractStatus.awarded ∧
          c.siteId = "site-001" ∧ c.porId = "por-001" ∧
          ∃ li ∈ c.lineItems, li.lineItemId = "line-002" :=
  fixedCost_one_finding_per_contract mockDb failingOracle awardA
    { lineItemId := "line-002", quantity := some 1 }
    { id := "line-002", name := "Network Switch", type := CostType.fixedCost }
    (by decide) rfl rfl

/-- Congruence for `flatMap` over the members of the list. -/
lemma flatMap_congr {α β : Type _} {l : List α} {f g : α → List β}
    (h : ∀ a ∈ l, f a = g a) : l.flatMap f = l.flatMap g := by
  induction l with
  | nil => rfl
  | cons a t ih =>
      simp only [List.flatMap_cons, h a (List.mem_cons_self a t),
        ih fun x hx => h x (List.mem_cons_of_mem a hx)]

/-- As long as an entry's id is among the proposal's searched ids, its
candidate-contract list does not depend on the rest of the proposal: the
up-front search (any proposed id) followed by the per-entry filter (this
id) collapses to a single filter on this id. -/
lemma contractsWithItem_awardSearch_eq (db : Db) (award : AwardData) (eid : String)
    (hid : eid ∈ awardLineItemIds award) :
    contractsWithItem (awardSearch db award) eid =
      db.contracts.filter fun c =>
        c.status == ContractStatus.awarded && c.siteId == award.siteId &&
        c.porId == award.porId && c.lineItems.any fun li => li.lineItemId == eid := by
  unfold contractsWithItem awardSearch searchExistingContracts
  rw [List.filter_filter]
  apply List.filter_congr
  intro c hc
  cases hany : c.lineItems.any fun li => li.lineItemId == eid with
  | false => simp [hany]
  | true =>
      have hcont :
          (c.lineItems.any fun li => (awardLineItemIds award).contains li.lineItemId)
            = true := by
        obtain ⟨li, hli, heq⟩ := List.any_eq_true.mp hany
        refine List.any_eq_true.mpr ⟨li, hli, ?_⟩
        rw [contains_iff_mem, beq_iff_eq.mp heq]
        exact hid
      simp only [hany, hcont, Bool.and_true, Bool.true_and]

/-- An entry's findings depend on the proposal only through the entry's
candidate-contract list. -/
lemma entryFindings_congr (db : Db) (oracle : Oracle) (a1 a2 : AwardData)
    (e : EntryItem)
    (hcs : contractsWithItem (awardSearch db a1) e.lineItemId =
      contractsWithItem (awardSearch db a2) e.lineItemId) :
    entryFindings db oracle a1 e = entryFindings db oracle a2 e := by
  unfold entryFindings
  rw [hcs]

/-- C8: a proposed entry whose line-item id has no definition in the record
store is silently excluded: it contributes no finding, the whole evaluation
equals the evaluation of the proposal without that entry, and the emitted
event count is unchanged (no event of its own, no error). -/
theorem unknown_item_silently_skipped (db : Db) (oracle : Oracle) (s p : String)
    (xs ys : List EntryItem) (e : EntryItem)
    (h : getLineItemDetails db.lineItems e.lineItemId = none) :
    entryFindings db oracle ⟨s, p, xs ++ e :: ys⟩ e = [] ∧
    evalDuplicates db oracle ⟨s, p, xs ++ e :: ys⟩ =
      evalDuplicates db oracle ⟨s, p, xs ++ ys⟩ ∧
    (pipelineEvents db oracle ⟨s, p, xs ++ e :: ys⟩).length =
      (pipelineEvents db oracle ⟨s, p, xs ++ ys⟩).length := by
  have h1 : ∀ a : AwardData, entryFindings db oracle a e = [] := by
    intro a
    simp [entryFindings, h]
  have key : ∀ e' ∈ xs ++ ys,
      entryFindings db oracle ⟨s, p, xs ++ e :: ys⟩ e' =
        entryFindings db oracle ⟨s, p, xs ++ ys⟩ e' := by
    intro e' he'
    have hid1 : e'.lineItemId ∈ awardLineItemIds ⟨s, p, xs ++ e :: ys⟩ := by
      rw [awardLineItemIds]
      refine List.mem_map.mpr ⟨e', ?_, rfl⟩
      rcases List.mem_append.mp he' with hx | hy
      · exact List.mem_append.mpr (Or.inl hx)
      · exact List.mem_append.mpr (Or.inr (List.mem_cons_of_mem e hy))
    have hid2 : e'.lineItemId ∈ awardLineItemIds ⟨s, p, xs ++ ys⟩ := by
      rw [awardLineItemIds]
      exact List.mem_map.mpr ⟨e', he', rfl⟩
    apply entryFindings_congr
    rw [contractsWithItem_awardSearch_eq db _ _ hid1,
      contractsWithItem_awardSearch_eq db _ _ hid2]
  have h2 : evalDuplicates db oracle ⟨s, p, xs ++ e :: ys⟩ =
      evalDuplicates db oracle ⟨s, p, xs ++ ys⟩ := by
    unfold evalDuplicates
    rw [List.flatMap_append, List.flatMap_cons, List.flatMap_append]
    rw [h1 ⟨s, p, xs ++ e :: ys⟩]
    rw [flatMap_congr fun a ha => key a (List.mem_append.mpr (Or.inl ha)),
      flatMap_congr fun a ha => key a (List.mem_append.mpr (Or.inr ha))]
    simp
  refine ⟨h1 _, h2, ?_⟩
  simp only [pipelineEvents, h2]
  split <;> rfl

/-- Witness for C8: proposing unknown `line-999` next to `line-002` at
`site-001`/`por-001` contributes nothing and leaves the evaluation of the
remaining entry untouched. -/
theorem unknown_item_silently_skipped_witness :
    entryFindings mockDb failingOracle
        ⟨"site-001", "por-001",
          [{ lineItemId := "line-002", quantity := some 1 },
           { lineItemId := "line-999" }]⟩
        { lineItemId := "line-999" } = [] ∧
    evalDuplicates mockDb failingOracle
        ⟨"site-001", "por-001",
          [{ lineItemId := "line-002", quantity := some 1 },
           { lineItemId := "line-999" }]⟩ =
      evalDuplicates mockDb failingOracle
        ⟨"site-001", "por-001", [{ lineItemId := "line-002", quantity := some 1 }]⟩ ∧
    (pipelineEvents mockDb failingOracle
        ⟨"site-001", "por-001",
          [{ lineItemId := "line-002", quantity := some 1 },
           { lineItemId := "line-999" }]⟩).length =
      (pipelineEvents mockDb failingOracle
        ⟨"site-001", "por-001",
          [{ lineItemId := "line-002", quantity := some 1 }]⟩).length :=
  unknown_item_silently_skipped mockDb failingOracle "site-001" "por-001"
    [{ lineItemId := "line-002", quantity := some 1 }] []
    { lineItemId := "line-999" } rfl

/-- The details text of `contract-001`'s variable-cost line item. -/
def detailsPO1 : String :=
  "Install fiber optic cable from main hub to building basement"

/-- A proposed variable-cost entry with its own free-text details. -/
def entryV : EntryItem :=
  { lineItemId := "line-001",
    details := some "Install fiber optic cable infrastructure" }

/-- The candidate list holding just `contract-001`. -/
def csV : List Contract := [contractPO1]

/-- The detailed match `detectVariableCostDuplicates` extracts from
`contract-001` for `line-001`. -/
def mPO1 : DetailedMatch :=
  { contractId := "contract-001", contractNumber := "PO-2025-001",
    details := detailsPO1 }

/-- A fixed-output Oracle asserting a duplicate with score `0.85`. -/
def oracleYes : Oracle :=
  fun _ _ => some { similarity_score := 0.85, is_duplicate := true,
                    reasoning := "Same work activity" }

/-- The response `oracleYes` always returns. -/
def respYes : OracleResponse :=
  { similarity_score := 0.85, is_duplicate := true,
    reasoning := "Same work activity" }

/-- C3: on the Oracle-success path the duplicate verdict is true exactly
when the Oracle reports `is_duplicate = true` OR its similarity score
exceeds `0.7` — the two signals are OR'd, so a score above the threshold
forces a duplicate verdict even with `is_duplicate = false` — and the
reported score is passed through unchanged. -/
theorem oracle_or_semantics (oracle : Oracle) (e : EntryItem) (cs : List Contract)
    (m : DetailedMatch) (resp : OracleResponse)
    (hm : (variableCostMatches e cs).head? = some m)
    (ho : oracle (promptDetails e.details) m.details = some resp) :
    ((detectVariableCostDuplicates oracle e cs).isDuplicate = true ↔
      resp.is_duplicate = true ∨ resp.similarity_score > (0.7 : ℚ)) ∧
    (detectVariableCostDuplicates oracle e cs).similarityScore =
      resp.similarity_score := by
  cases hvm : variableCostMatches e cs with
  | nil => rw [hvm] at hm; simp at hm
  | cons fm rest =>
      rw [hvm] at hm
      simp only [List.head?_cons, Option.some.injEq] at hm
      subst hm
      simp only [detectVariableCostDuplicates, hvm, ho]
      simp [decide_eq_true_iff]

/-- Witness for C3 at concrete inputs: `contract-001`'s candidate details
against a paraphrasing proposal, with the Oracle answering
`is_duplicate = true`, `score = 0.85`. -/
theorem oracle_or_semantics_witness :
    ((detectVariableCostDuplicates oracleYes entryV csV).isDuplicate = true ↔
      respYes.is_duplicate = true ∨ respYes.similarity_score > (0.7 : ℚ)) ∧
    (detectVariableCostDuplicates oracleYes entryV csV).similarityScore =
      respYes.similarity_score :=
  oracle_or_semantics oracleYes entryV csV mPO1 respYes rfl rfl

/-- C4: when the Oracle invocation fails the fallback still returns a
verdict — the embedding is total, so the equations below exhibit the
result — and that verdict is exactly the spec's lexical heuristic:
tokenize on whitespace, keep tokens longer than 3 characters, take the
fraction of the new item's tokens occurring as substrings of the existing
item's text, and report a duplicate exactly when the fraction exceeds
`0.5`. -/
theorem fallback_lexical_heuristic (oracle : Oracle) (e : EntryItem)
    (cs : List Contract) (m : DetailedMatch)
    (hm : (variableCostMatches e cs).head? = some m)
    (ho : oracle (promptDetails e.details) m.details = none) :
    (detectVariableCostDuplicates oracle e cs).isDuplicate =
      specLexicalVerdict (e.details.getD "") m.details ∧
    (detectVariableCostDuplicates oracle e cs).similarityScore =
      specLexicalFraction (e.details.getD "") m.details := by
  cases hvm : variableCostMatches e cs with
  | nil => rw [hvm] at hm; simp at hm
  | cons fm rest =>
      rw [hvm] at hm
      simp only [List.head?_cons, Option.some.injEq] at hm
      subst hm
      simp only [detectVariableCostDuplicates, hvm, ho]
      unfold specLexicalVerdict specLexicalFraction fallbackKeywords
      by_cases hk :
          (((e.details.getD "").toLower.split fun c => c.isWhitespace).filter
            fun w => w.length > 3).length > 0
      · simp [hk]
      · have h0 :
            (((e.details.getD "").toLower.split fun c => c.isWhitespace).filter
              fun w => w.length > 3) = [] :=
          List.length_eq_zero.mp (by omega)
        simp [hk, h0]

/-- Witness for C4: against `contract-001`'s details with an unreachable
Oracle, the fallback produces the spec's lexical verdict and fraction. -/
theorem fallback_lexical_heuristic_witness :
    (detectVariableCostDuplicates failingOracle entryV csV).isDuplicate =
      specLexicalVerdict (entryV.details.getD "") mPO1.details ∧
    (detectVariableCostDuplicates failingOracle entryV csV).similarityScore =
      specLexicalFraction (entryV.details.getD "") mPO1.details :=
  fallback_lexical_heuristic failingOracle entryV csV mPO1 rfl rfl

/-- An Oracle that only answers for `contract-001`'s details text. -/
def oracleOnPO1 : Oracle :=
  fun _ existing =>
    if existing == detailsPO1 then
      some { similarity_score := 0.85, is_duplicate := true,
             reasoning := "Same work activity" }
    else none

/-- C7: the semantic path compares one representative only.  (i) With no
candidate entry carrying the same id and non-empty details, the result is
the constant no-comparable-details verdict `{isDuplicate := false,
score := 0}` — and, being independent of the Oracle argument, it is reached
without invoking the Oracle.  (ii) Otherwise the result depends on the
Oracle only at the single pair formed from the first detailed candidate —
no other comparison is consulted.  (iii) A variable-cost entry contributes
at most one finding. -/
theorem semantic_single_representative :
    (∀ (oracle : Oracle) (e : EntryItem) (cs : List Contract),
      variableCostMatches e cs = [] →
        detectVariableCostDuplicates oracle e cs =
          { isDuplicate := false, similarityScore := 0,
            reasoning := "No variable-cost items with details found to compare",
            matchingContractId := none }) ∧
    (∀ (e : EntryItem) (cs : List Contract) (m : DetailedMatch) (o1 o2 : Oracle),
      (variableCostMatches e cs).head? = some m →
      o1 (promptDetails e.details) m.details = o2 (promptDetails e.details) m.details →
      detectVariableCostDuplicates o1 e cs = detectVariableCostDuplicates o2 e cs) ∧
    (∀ (db : Db) (oracle : Oracle) (award : AwardData) (e : EntryItem) (d : LineItem),
      getLineItemDetails db.lineItems e.lineItemId = some d →
      d.type = CostType.variableCost →
      (entryFindings db oracle award e).length ≤ 1) := by
  refine ⟨?_, ?_, ?_⟩
  · intro oracle e cs h
    simp only [detectVariableCostDuplicates, h]
  · intro e cs m o1 o2 hm hagree
    cases hvm : variableCostMatches e cs with
    | nil => simp only [detectVariableCostDuplicates, hvm]
    | cons fm rest =>
        rw [hvm] at hm
        simp only [List.head?_cons, Option.some.injEq] at hm
        subst hm
        simp only [detectVariableCostDuplicates, hvm, hagree]
  · intro db oracle award e d hdef htype
    have ht : (d.type == CostType.fixedCost) = false := by rw [htype]; rfl
    simp only [entryFindings, hdef, ht]
    split
    · split
      · simp_all
      · split
        · split <;> simp
        · simp
    · simp

/-- Witness for C7 at concrete inputs: an empty candidate list
short-circuits; two different Oracles agreeing on the single compared pair
give identical results on `contract-001`'s candidate list; and the
variable-cost `line-001` proposal contributes at most one finding. -/
theorem semantic_single_representative_witness :
    detectVariableCostDuplicates failingOracle entryV [] =
      { isDuplicate := false, similarityScore := 0,
        reasoning := "No variable-cost items with details found to compare",
        matchingContractId := none } ∧
    detectVariableCostDuplicates oracleYes entryV csV =
      detectVariableCostDuplicates oracleOnPO1 entryV csV ∧
    (entryFindings mockDb failingOracle
        ⟨"site-001", "por-001", [entryV]⟩ entryV).length ≤ 1 :=
  ⟨semantic_single_representative.1 failingOracle entryV [] rfl,
   semantic_single_representative.2.1 entryV csV mPO1 oracleYes oracleOnPO1 rfl rfl,
   semantic_single_representative.2.2 mockDb failingOracle
     ⟨"site-001", "por-001", [entryV]⟩ entryV
     { id := "line-001", name := "Fiber Optic Cable Installation",
       type := CostType.variableCost } rfl rfl⟩

/-- C10: a variable-cost entry with absent or empty details is still routed
to the Oracle when a detailed candidate exists — the comparison uses the
`"No details provided"` placeholder — and, on a positive Oracle verdict,
the entry is reported as a semantic duplicate finding. -/
theorem missing_details_placeholder_still_semantic (db : Db) (oracle : Oracle)
    (award : AwardData) (e : EntryItem) (d : LineItem) (m : DetailedMatch)
    (resp : OracleResponse)
    (hdet : e.details = none ∨ e.details = some "")
    (hdef : getLineItemDetails db.lineItems e.lineItemId = some d)
    (htype : d.type = CostType.variableCost)
    (hm : (variableCostMatches e
      (contractsWithItem (awardSearch db award) e.lineItemId)).head? = some m)
    (ho : oracle "No details provided" m.details = some resp)
    (hdup : resp.is_duplicate = true)
    (hcid : m.contractId ≠ "") :
    entryFindings db oracle award e =
      [{ lineItemId := e.lineItemId, lineItemName := d.name,
         existingContractId := m.contractId,
         existingContractNumber :=
           (((contractsWithItem (awardSearch db award) e.lineItemId).find?
               fun c => c.id == m.contractId).map fun c => c.contractNumber).getD "",
         matchType := MatchType.semantic,
         similarityScore := some resp.similarity_score,
         aiReasoning := some resp.reasoning }] := by
  have hprompt : promptDetails e.details = "No details provided" := by
    rcases hdet with h | h <;> simp [promptDetails, h]
  cases hvm : variableCostMatches e
      (contractsWithItem (awardSearch db award) e.lineItemId) with
  | nil => rw [hvm] at hm; simp at hm
  | cons fm rest =>
      rw [hvm] at hm
      simp only [List.head?_cons, Option.some.injEq] at hm
      subst hm
      have hdetect : detectVariableCostDuplicates oracle e
          (contractsWithItem (awardSearch db award) e.lineItemId) =
          { isDuplicate := resp.is_duplicate
              || decide (resp.similarity_score > (0.7 : ℚ)),
            similarityScore := resp.similarity_score,
            reasoning := resp.reasoning,
            matchingContractId := some fm.contractId } := by
        simp only [detectVariableCostDuplicates, hvm, hprompt, ho]
      have hlen : (contractsWithItem (awardSearch db award) e.lineItemId).length > 0 := by
        cases hcs : contractsWithItem (awardSearch db award) e.lineItemId with
        | nil => rw [hcs] at hvm; simp [variableCostMatches] at hvm
        | cons _ _ => simp [hcs]
      have ht : (d.type == CostType.fixedCost) = false := by rw [htype]; rfl
      have hne : (fm.contractId != "") = true := by
        simp [bne, hcid]
      simp only [entryFindings, hdef, ht, hdetect, hlen, if_true, hdup, hne,
        Bool.true_or, Bool.and_self, if_pos]
      simp

/-- A proposed `line-001` entry with no details at all. -/
def entryNoDetails : EntryItem := { lineItemId := "line-001" }

/-- The proposal carrying only the details-less entry. -/
def awardNoDetails : AwardData :=
  { siteId := "site-001", porId := "por-001", lineItems := [entryNoDetails] }

/-- Witness for C10: proposing `line-001` with no details against
`contract-001`'s detailed entry still yields a semantic duplicate finding
when the Oracle confirms the placeholder comparison. -/
theorem missing_details_placeholder_still_semantic_witness :
    entryFindings mockDb oracleYes awardNoDetails entryNoDetails =
      [{ lineItemId := "line-001", lineItemName := "Fiber Optic Cable Installation",
         existingContractId := "contract-001", existingContractNumber := "PO-2025-001",
         matchType := MatchType.semantic,
         similarityScore := some respYes.similarity_score,
         aiReasoning := some respYes.reasoning }] :=
  missing_details_placeholder_still_semantic mockDb oracleYes awardNoDetails
    entryNoDetails
    { id := "line-001", name := "Fiber Optic Cable Installation",
      type := CostType.variableCost }
    mPO1 respYes (Or.inl rfl) rfl rfl rfl rfl rfl (by decide)

end DupCheck
